import Mathlib

set_option maxRecDepth 100000

/-!
Verification of the thepiratedb crawl core (`thepiratedb.go`).

Strings and byte slices of the Go program are embedded as `List Char`
(the program only ever compares and slices bytes of ASCII markup, so a
char-list model is faithful).  Fallible operations return `Option`.
Machine integers (`int`, `int64`; both 64-bit here) are embedded as `Int`
with explicit clamping where `strconv` clamps.
-/

namespace ThePirateDb

/-- Whitespace class used by the Go regexp escape `\s` (space, tab,
newline, carriage return, form feed, vertical tab). -/
def goWs (c : Char) : Bool :=
  c = ' ' || c = '\t' || c = '\n' || c = '\x0d' || c = '\x0c' || c = '\x0b'

/-- Drop whitespace from both ends of a char list. -/
def trimChars (l : List Char) : List Char :=
  ((l.dropWhile goWs).reverse.dropWhile goWs).reverse

/-- Split a char list around the first (leftmost) occurrence of `pat`,
returning the part before it and the part after it.  `none` when `pat`
does not occur.  This is the search primitive behind `bytes.Index`,
`bytes.HasPrefix` windows and the simplified regex matchers below. -/
def splitOnce (pat : List Char) : List Char → Option (List Char × List Char)
  | [] => if pat.isPrefixOf ([] : List Char) then some ([], []) else none
  | c :: rest =>
    if pat.isPrefixOf (c :: rest) then some ([], (c :: rest).drop pat.length)
    else (splitOnce pat rest).map (fun p => (c :: p.1, p.2))

/-- Suffix after the first occurrence of `pat`. -/
def afterFirst (pat l : List Char) : Option (List Char) :=
  (splitOnce pat l).map (·.2)

/-- Chars before the first occurrence of `pat`. -/
def beforeFirst (pat l : List Char) : Option (List Char) :=
  (splitOnce pat l).map (·.1)

/-- Embedding of `bytes.Index(l, pat) >= 0`: `pat` occurs in `l`. -/
def hasSub (pat l : List Char) : Bool :=
  (splitOnce pat l).isSome

/-- The maximal run of decimal digits at the end of a char list. -/
def trailingDigits (l : List Char) : List Char :=
  (l.reverse.takeWhile Char.isDigit).reverse

/-- Numeric value of a nonempty all-digit char list; `none` otherwise. -/
def digitsVal? (l : List Char) : Option Nat :=
  if l = [] then none
  else l.foldlM (fun acc c => if c.isDigit then some (acc * 10 + (c.toNat - 48)) else none) 0

/-- Embedding of Go `strconv.ParseInt(s, 10, 64)` (and `strconv.Atoi` on a
64-bit platform): returns the parsed value and an ok flag.  On a syntax
error Go returns `(0, err)`; on a range error it returns the nearest
valid `int64` and an error — both are modelled, since the Go code
assigns the returned value to the record field before checking `err`. -/
def goParseInt (s : List Char) : Int × Bool :=
  let core : List Char → Bool → Int × Bool := fun ds neg =>
    match digitsVal? ds with
    | none => (0, false)
    | some n =>
      if neg then
        if (n : Int) > 2 ^ 63 then (-(2 ^ 63), false) else (-(n : Int), true)
      else
        if (n : Int) > 2 ^ 63 - 1 then (2 ^ 63 - 1, false) else ((n : Int), true)
  match s with
  | '+' :: rest => core rest false
  | '-' :: rest => core rest true
  | _ => core s false

/-- Embedding of Go `html.UnescapeString`, restricted to the basic named
and numeric entities (`&amp;` `&lt;` `&gt;` `&quot;` `&#39;` `&nbsp;`);
`html.UnescapeString` agrees with this on every input whose entities are
among these, which covers the markup this program manipulates. -/
def unescapeChars : List Char → List Char
  | '&' :: 'a' :: 'm' :: 'p' :: ';' :: r => '&' :: unescapeChars r
  | '&' :: 'l' :: 't' :: ';' :: r => '<' :: unescapeChars r
  | '&' :: 'g' :: 't' :: ';' :: r => '>' :: unescapeChars r
  | '&' :: 'q' :: 'u' :: 'o' :: 't' :: ';' :: r => '"' :: unescapeChars r
  | '&' :: '#' :: '3' :: '9' :: ';' :: r => '\'' :: unescapeChars r
  | '&' :: 'n' :: 'b' :: 's' :: 'p' :: ';' :: r => ' ' :: unescapeChars r
  | c :: r => c :: unescapeChars r
  | [] => []

/-- After an opening `<`, the Go regex `<.+?>` (with `(?s)`) consumes at
least one character and then the nearest `>`; this returns the suffix
after that closing `>`, or `none` when no such match exists. -/
def tagEnd : List Char → Option (List Char)
  | [] => none
  | _ :: rest => go rest
where
  go : List Char → Option (List Char)
    | [] => none
    | '>' :: r => some r
    | _ :: r => go r

/-- Fuelled scanner for `stripTagsRegexp.ReplaceAllLiteralString(s, "")`:
leftmost, non-overlapping, lazy matches of `(?s)<.+?>` are deleted.  The
fuel is the input length, which every step strictly decreases below. -/
def stripTagsFuel : Nat → List Char → List Char
  | 0, l => l
  | _ + 1, [] => []
  | f + 1, '<' :: rest =>
    match tagEnd rest with
    | some r => stripTagsFuel f r
    | none => '<' :: stripTagsFuel f rest
  | f + 1, c :: rest => c :: stripTagsFuel f rest

/-- Embedding of the Go `stripTags` helper. -/
def stripTags (l : List Char) : List Char :=
  stripTagsFuel l.length l

/-- Embedding of the Go `Torrent` struct.  `Uploaded` (a `time.Time`)
is embedded abstractly as an integer timestamp, `0` standing for the
zero `time.Time` that `time.Parse` returns alongside an error. -/
structure Torrent where
  Id : Int
  Title : List Char
  Category : List Char
  Size : Int
  Seeders : Int
  Leechers : Int
  Uploaded : Int
  Uploader : List Char
  Files_num : Int
  Description : List Char
  Magnet : List Char
deriving DecidableEq, Repr

/-- The zero value of the Go `Torrent` struct, as built by `new(Torrent)`. -/
def torrentZero : Torrent :=
  { Id := 0, Title := [], Category := [], Size := 0, Seeders := 0,
    Leechers := 0, Uploaded := 0, Uploader := [], Files_num := 0,
    Description := [], Magnet := [] }

/-- A field matcher embeds one compiled regex of the package-level
`regexes` table: `FindSubmatch` returning the first capture group, or
`none` when the pattern does not match.  The exact RE2 semantics of the
ten patterns are kept abstract; theorems quantify over all matchers, and
concrete executable matchers below instantiate them for evaluation. -/
abbrev Matcher := List Char → Option (List Char)

/-- The ten-entry pattern table, one matcher per field, named as in the
source's `regexes` struct. -/
structure FieldMatchers where
  title : Matcher
  category : Matcher
  size : Matcher
  seeders : Matcher
  leechers : Matcher
  uploaded : Matcher
  uploader : Matcher
  files_num : Matcher
  description : Matcher
  magnet : Matcher

/-- Embedding of `ParseTorrent(data []byte, t *Torrent) error`.  The Go
function mutates `t` through a pointer and returns an error; this is
modelled as state passing: the result is the returned error (`none` for
success) together with the record as left by the call.  `timeParse`
embeds `time.Parse` with the fixed layout: `none` on a layout mismatch,
in which case Go assigns the zero `time.Time` (modelled as `0`) before
the error check, exactly as `strconv` assigns its returned value on a
failed numeric parse. -/
def ParseTorrent (rx : FieldMatchers) (timeParse : List Char → Option Int)
    (data : List Char) (t : Torrent) : Option String × Torrent :=
  match rx.title data with
  | none => (some "title not found", t)
  | some m1 =>
  let t := { t with Title := unescapeChars m1 }
  match rx.category data with
  | none => (some "category not found", t)
  | some m2 =>
  let t := { t with Category := unescapeChars m2 }
  match rx.size data with
  | none => (some "size not found", t)
  | some m3 =>
  let p3 := goParseInt m3
  let t := { t with Size := p3.1 }
  if !p3.2 then (some "size malformed", t) else
  match rx.seeders data with
  | none => (some "seeders not found", t)
  | some m4 =>
  let p4 := goParseInt m4
  let t := { t with Seeders := p4.1 }
  if !p4.2 then (some "seeders malformed", t) else
  match rx.leechers data with
  | none => (some "leechers not found", t)
  | some m5 =>
  let p5 := goParseInt m5
  let t := { t with Leechers := p5.1 }
  if !p5.2 then (some "leechers malformed", t) else
  match rx.uploaded data with
  | none => (some "uploaded not found", t)
  | some m6 =>
  let t := { t with Uploaded := (timeParse m6).getD 0 }
  if (timeParse m6).isNone then (some "uploaded malformed", t) else
  match rx.uploader data with
  | none => (some "uploader not found", t)
  | some m7 =>
  let t := { t with Uploader := m7 }
  match rx.files_num data with
  | none => (some "files_num not found", t)
  | some m8 =>
  let p8 := goParseInt m8
  let t := { t with Files_num := p8.1 }
  if !p8.2 then (some "files_num malformed", t) else
  match rx.description data with
  | none => (some "description not found", t)
  | some m9 =>
  let t := { t with Description := unescapeChars (stripTags m9) }
  match rx.magnet data with
  | none => (some "magnet not found", t)
  | some m10 =>
  let t := { t with Magnet := m10 }
  (none, t)

/-- Reference error function, written from the spec's description of the
extraction contract: walk the ten fields in the fixed order, each with an
independent match against the same unmodified input, and return the first
missing or malformed field's descriptive error. -/
def parseTorrentError (rx : FieldMatchers) (timeParse : List Char → Option Int)
    (data : List Char) : Option String :=
  match rx.title data with
  | none => some "title not found"
  | some _ =>
  match rx.category data with
  | none => some "category not found"
  | some _ =>
  match rx.size data with
  | none => some "size not found"
  | some m3 =>
  if !(goParseInt m3).2 then some "size malformed" else
  match rx.seeders data with
  | none => some "seeders not found"
  | some m4 =>
  if !(goParseInt m4).2 then some "seeders malformed" else
  match rx.leechers data with
  | none => some "leechers not found"
  | some m5 =>
  if !(goParseInt m5).2 then some "leechers malformed" else
  match rx.uploaded data with
  | none => some "uploaded not found"
  | some m6 =>
  if (timeParse m6).isNone then some "uploaded malformed" else
  match rx.uploader data with
  | none => some "uploader not found"
  | some _ =>
  match rx.files_num data with
  | none => some "files_num not found"
  | some m8 =>
  if !(goParseInt m8).2 then some "files_num malformed" else
  match rx.description data with
  | none => some "description not found"
  | some _ =>
  match rx.magnet data with
  | none => some "magnet not found"
  | some _ => none

/-- The not-found marker `notFoundText` of the source. -/
def notFoundL : List Char :=
  "<title>Not Found | The Pirate Bay - The world".toList ++
    [Char.ofNat 39] ++ "s most resilient BitTorrent site</title>".toList

/-- The document-type marker `doctype` of the source. -/
def doctypeL : List Char := "<!DOCTYPE html PUBLIC".toList

/-- Result of one `client.Get` plus `ioutil.ReadAll`: a connection
error, a body-read error, or a fully read body. -/
inductive FetchResult where
  | connError
  | readError
  | ok (body : List Char)

/-- A fetch result the runner classifies as retryable before even
looking past the prefix: connection error, unreadable body, or a body
not starting with the doctype marker. -/
def retryable : FetchResult → Bool
  | .connError => true
  | .readError => true
  | .ok body => !(doctypeL.isPrefixOf body)

/-- Embedding of the slice expression `body[:300]` at the not-found
check.  `body` comes from `ioutil.ReadAll`, which always returns a
slice whose capacity is at least 512 (the buffer is pre-grown by
`bytes.MinRead`), and Go slice expressions are bounds-checked against
capacity, not length, so `body[:300]` is legal for every body: it is
the first 300 bytes of the underlying buffer — the body itself
followed, when the body is shorter than 300 bytes, by the zero bytes of
the fresh buffer. -/
def slice300 (body : List Char) : List Char :=
  body.take 300 ++ List.replicate (300 - body.length) (Char.ofNat 0)

/-- Terminal state of the runner for one identifier (non-strict mode,
`DEBUG` unset, so every `log.Fatal` branch is a `log.Printf`):
`failed` = retries exhausted, one "Failed torrent" line logged, no
record; `skipped` = not-found marker seen, nothing logged, no record;
`emitted t e` = the record `t` was sent on `dbChan`, with `e` the
extraction error logged just before the send (`none` when extraction
succeeded). -/
inductive StepOutcome where
  | failed
  | skipped
  | emitted (t : Torrent) (e : Option String)
deriving DecidableEq

/-- Observable trace of the runner on one identifier: the terminal
outcome, the number of `client.Get` calls made, and the sleep durations
(in seconds, i.e. units of `time.Second`) in the order they happened. -/
structure RunTrace where
  outcome : StepOutcome
  attempts : Nat
  sleeps : List Nat
deriving DecidableEq

/-- The `goto start` retry loop of `runner`, one identifier.  `fetch n`
is the result of the n-th attempt (n = the value of `tries` at that
attempt).  `remaining` is `maxTries - tries`, so `remaining = 0` exactly
when the incremented counter exceeds `maxTries` and the identifier is
abandoned; the structural fuel makes the loop body literal: increment
`tries`, bail out if it exceeds the bound, fetch, retry with a sleep of
`tries` seconds on a retryable failure (the source tests
`!bytes.HasPrefix` and jumps; the branches are swapped accordingly),
otherwise look for the not-found marker in the `body[:300]` window
(`slice300`, always in capacity) and skip when present, and otherwise
run `ParseTorrent` on a fresh record carrying the identifier, log any
extraction error, and send the record on `dbChan`. -/
def runnerAux (fetch : Nat → FetchResult) (rx : FieldMatchers)
    (timeParse : List Char → Option Int) (i : Int) :
    Nat → Nat → RunTrace
  | 0, _ => { outcome := .failed, attempts := 0, sleeps := [] }
  | remaining + 1, tries =>
    let n := tries + 1
    match fetch n with
    | .connError =>
      let r := runnerAux fetch rx timeParse i remaining n
      { outcome := r.outcome, attempts := r.attempts + 1, sleeps := n :: r.sleeps }
    | .readError =>
      let r := runnerAux fetch rx timeParse i remaining n
      { outcome := r.outcome, attempts := r.attempts + 1, sleeps := n :: r.sleeps }
    | .ok body =>
      if doctypeL.isPrefixOf body then
        if hasSub notFoundL (slice300 body) then
          { outcome := .skipped, attempts := 1, sleeps := [] }
        else
          let p := ParseTorrent rx timeParse body { torrentZero with Id := i }
          { outcome := .emitted p.2 p.1, attempts := 1, sleeps := [] }
      else
        let r := runnerAux fetch rx timeParse i remaining n
        { outcome := r.outcome, attempts := r.attempts + 1, sleeps := n :: r.sleeps }

/-- The runner's processing of one identifier `i`, starting from
`tries := 0` with bound `maxTries`. -/
def runnerOne (fetch : Nat → FetchResult) (rx : FieldMatchers)
    (timeParse : List Char → Option Int) (i : Int) (maxTries : Nat) : RunTrace :=
  runnerAux fetch rx timeParse i maxTries 0

/-- The identifier-producing loop of `main`:
`for i := 1 + startOffset; i <= latest+startOffset; i++ { ci <- i }`.
`dispatchFrom stop i` is the list of values sent from `i` up to `stop`;
the end of the list models `close(ci)`. -/
def dispatchFrom (stop : Int) (i : Int) : List Int :=
  if h : i ≤ stop then i :: dispatchFrom stop (i + 1) else []
termination_by (stop + 1 - i).toNat
decreasing_by
  omega

/-- The full dispatch sequence for a start offset and the probed
`latest` count. -/
def dispatch (startOffset latest : Int) : List Int :=
  dispatchFrom (latest + startOffset) (1 + startOffset)

/-- Observable trace of `writer`: the records passed to
`insertQuery.Exec` in order, the identifiers for which the insert error
branch logged, and the number of completion signals (`lock.Unlock`). -/
structure WriterTrace where
  inserted : List Torrent
  logged : List Int
  doneSignals : Nat
deriving DecidableEq

/-- Embedding of `writer` in non-strict mode: drain the channel (the
input list, whose end models channel closure), one synchronous insert
per record; a failed insert (per the `insertOk` oracle) logs the
record's identifier and the loop continues; after the channel closes the
mutex is unlocked exactly once. -/
def writerRun (insertOk : Torrent → Bool) : List Torrent → WriterTrace
  | [] => { inserted := [], logged := [], doneSignals := 1 }
  | t :: rest =>
    let w := writerRun insertOk rest
    { inserted := t :: w.inserted,
      logged := (if insertOk t then [] else [t.Id]) ++ w.logged,
      doneSignals := w.doneSignals }

/-!
Concrete executable matchers.  Each is a model of the corresponding
compiled regex in the source's `regexes` table, built from the literal
delimiters of that pattern; on the concrete documents below (where each
delimiter occurs unambiguously) each agrees with the RE2 leftmost-lazy
semantics of the original pattern.  They instantiate the abstract
`FieldMatchers` for concrete evaluation only; all general theorems are
quantified over arbitrary matchers.
-/

/-- Model of `<div id="title">\s*(.+?)\s*</div>`. -/
def matchTitle : Matcher := fun d =>
  ((afterFirst "<div id=\"title\">".toList d).bind
    (beforeFirst "</div>".toList)).map trimChars

/-- Model of `<dt>Type:</dt>\s*<dd><a[^>]*>(.+?)</a></dd>`. -/
def matchCategory : Matcher := fun d =>
  (afterFirst "<dt>Type:</dt>".toList d).bind fun r =>
  (afterFirst "<dd><a".toList r).bind fun r =>
  (afterFirst ">".toList r).bind (beforeFirst "</a></dd>".toList)

/-- Model of `(?s)<dt>Size:</dt>.*?\((\d+)&nbsp;Bytes\)</dd>`. -/
def matchSize : Matcher := fun d =>
  (afterFirst "<dt>Size:</dt>".toList d).bind fun r =>
  (afterFirst "(".toList r).bind (beforeFirst "&nbsp;Bytes)</dd>".toList)

/-- Model of `(?s)<dt>Seeders:</dt>.*?(\d+)</dd>`. -/
def matchSeeders : Matcher := fun d =>
  (afterFirst "<dt>Seeders:</dt>".toList d).bind fun r =>
  (beforeFirst "</dd>".toList r).bind fun m =>
  let ds := trailingDigits m
  if ds = [] then none else some ds

/-- Model of `(?s)<dt>Leechers:</dt>.*?(\d+)</dd>`. -/
def matchLeechers : Matcher := fun d =>
  (afterFirst "<dt>Leechers:</dt>".toList d).bind fun r =>
  (beforeFirst "</dd>".toList r).bind fun m =>
  let ds := trailingDigits m
  if ds = [] then none else some ds

/-- Model of `<dt>Uploaded:</dt>\s*<dd>(.+?)</dd>`. -/
def matchUploaded : Matcher := fun d =>
  (afterFirst "<dt>Uploaded:</dt>".toList d).bind fun r =>
  (afterFirst "<dd>".toList r).bind (beforeFirst "</dd>".toList)

/-- Model of `<dt>By:</dt>\s*<dd>\s*<[ai][^>]*>(.+?)</[ai]>`. -/
def matchUploader : Matcher := fun d =>
  (afterFirst "<dt>By:</dt>".toList d).bind fun r =>
  (afterFirst "<dd>".toList r).bind fun r =>
  (afterFirst "<a".toList r).bind fun r =>
  (afterFirst ">".toList r).bind (beforeFirst "</a>".toList)

/-- Model of `(?s)<dt>Files:</dt>\s*<dd>.+?(\d+)</a></dd>`. -/
def matchFiles : Matcher := fun d =>
  (afterFirst "<dt>Files:</dt>".toList d).bind fun r =>
  (afterFirst "<dd>".toList r).bind fun r =>
  (beforeFirst "</a></dd>".toList r).bind fun m =>
  let ds := trailingDigits m
  if ds = [] then none else some ds

/-- Model of `(?s)<div class="nfo">\s*<pre>(.+?)</pre>`. -/
def matchDescription : Matcher := fun d =>
  (afterFirst "<div class=\"nfo\">".toList d).bind fun r =>
  (afterFirst "<pre>".toList r).bind (beforeFirst "</pre>".toList)

/-- Model of `href="(magnet:.+?)" title="Get this torrent"`. -/
def matchMagnet : Matcher := fun d =>
  ((afterFirst "href=\"magnet:".toList d).bind
    (beforeFirst "\" title=\"Get this torrent\"".toList)).map
    (fun m => "magnet:".toList ++ m)

/-- The concrete pattern table instantiating `FieldMatchers`. -/
def concreteMatchers : FieldMatchers :=
  { title := matchTitle, category := matchCategory, size := matchSize,
    seeders := matchSeeders, leechers := matchLeechers,
    uploaded := matchUploaded, uploader := matchUploader,
    files_num := matchFiles, description := matchDescription,
    magnet := matchMagnet }

/-- Concrete embedding of `time.Parse("2006-01-02 15:04:05 MST", s)`:
recognises the one timestamp string appearing in the concrete documents
below and maps it to its Unix time; everything else is a layout
mismatch. -/
def tp0 : List Char → Option Int := fun s =>
  if s = "2011-07-04 12:00:00 GMT".toList then some 1309780800 else none

/-- A well-formed document: doctype prefix, no not-found marker, all ten
fields present and well-formed.  Each regex of the source matches it
with the evident capture. -/
def goodDoc : List Char := String.toList
  ("<!DOCTYPE html PUBLIC \"-//W3C//DTD XHTML 1.0 Transitional//EN\"><html>" ++
   "<div id=\"title\"> Cool&amp;Torrent </div>" ++
   "<dl><dt>Type:</dt> <dd><a href=\"/browse/video\">Video</a></dd>" ++
   "<dt>Files:</dt> <dd><a href=\"/f\">3</a></dd>" ++
   "<dt>Size:</dt> <dd>2 KiB (2048&nbsp;Bytes)</dd>" ++
   "<dt>Uploaded:</dt> <dd>2011-07-04 12:00:00 GMT</dd>" ++
   "<dt>By:</dt> <dd> <a href=\"/user/ann\">Ann&amp;Bob</a></dd>" ++
   "<dt>Seeders:</dt> <dd>42</dd>" ++
   "<dt>Leechers:</dt> <dd>7</dd></dl>" ++
   "<div class=\"nfo\"><pre> A &amp; B <b>desc</b> </pre></div>" ++
   "<a href=\"magnet:?xt=urn:btih:abc\" title=\"Get this torrent\">Get</a></html>")

/-- A document whose size field matches the size pattern but whose
digits overflow `int64`, so `strconv.ParseInt` fails with a range error
after returning the clamped maximum. -/
def sizeOverflowDoc : List Char := String.toList
  ("<div id=\"title\">T</div>" ++
   "<dt>Type:</dt> <dd><a h>V</a></dd>" ++
   "<dt>Size:</dt> <dd>(9999999999999999999999&nbsp;Bytes)</dd>")

/-- A fetched body with the doctype prefix, no not-found marker, at
least 300 bytes, and no title element: extraction fails on the first
field. -/
def noTitleBody : List Char := doctypeL ++ List.replicate 280 'x'

/-- A fetched body with the doctype prefix and the not-found marker,
padded past 300 bytes. -/
def notFoundBody : List Char := doctypeL ++ notFoundL ++ List.replicate 200 ' '

/-- A fetched body with the doctype prefix and the not-found marker but
fewer than 300 bytes in total. -/
def shortNotFoundBody : List Char := doctypeL ++ notFoundL

/-- A fetched body with the doctype prefix, fewer than 300 bytes, and
neither the not-found marker nor a title element. -/
def shortNoMarkerBody : List Char := doctypeL ++ "<html>x</html>".toList

/-!  Helper lemmas (shared; none of these is a claim's theorem). -/

/-- A prefix of `l` is a prefix of `l ++ l2`. -/
theorem isPrefixOf_append_right : ∀ (pat l l2 : List Char),
    pat.isPrefixOf l = true → pat.isPrefixOf (l ++ l2) = true
  | [], _, _, _ => by simp [List.isPrefixOf]
  | p :: ps, [], l2, h => by simp [List.isPrefixOf] at h
  | p :: ps, c :: cs, l2, h => by
    simp only [List.isPrefixOf, Bool.and_eq_true] at h
    simp only [List.cons_append, List.isPrefixOf, Bool.and_eq_true]
    exact ⟨h.1, isPrefixOf_append_right ps cs l2 h.2⟩

/-- A list starting with `pat` contains `pat`. -/
theorem hasSub_of_prefix (pat l : List Char)
    (h : pat.isPrefixOf l = true) : hasSub pat l = true := by
  cases l with
  | nil => simp [hasSub, splitOnce, h]
  | cons c r => simp [hasSub, splitOnce, h]

/-- An occurrence of `pat` in `l` is an occurrence in `l ++ l2`. -/
theorem hasSub_append : ∀ (pat l l2 : List Char),
    hasSub pat l = true → hasSub pat (l ++ l2) = true := by
  intro pat l
  induction l with
  | nil =>
    intro l2 h
    have hp : pat.isPrefixOf ([] : List Char) = true := by
      by_contra hc
      simp only [Bool.not_eq_true] at hc
      simp [hasSub, splitOnce, hc] at h
    exact hasSub_of_prefix pat ([] ++ l2) (isPrefixOf_append_right pat [] l2 hp)
  | cons c rest ih =>
    intro l2 h
    rw [List.cons_append]
    by_cases hp : pat.isPrefixOf (c :: (rest ++ l2)) = true
    · exact hasSub_of_prefix pat _ hp
    · simp only [Bool.not_eq_true] at hp
      have hp0 : pat.isPrefixOf (c :: rest) = false := by
        by_contra hc
        simp only [Bool.not_eq_false] at hc
        have h2 := isPrefixOf_append_right pat (c :: rest) l2 hc
        rw [List.cons_append] at h2
        rw [h2] at hp
        cases hp
      have hrest : hasSub pat rest = true := by
        simp [hasSub, splitOnce, hp0] at h
        simpa [hasSub] using h
      have hres := ih l2 hrest
      simp [hasSub, splitOnce, hp]
      simpa [hasSub] using hres

/-- Prepending `t + 1` to the consecutive values starting at `t + 2`
gives the consecutive values starting at `t + 1`. -/
theorem cons_range_map (t len : Nat) :
    (t + 1) :: (List.range len).map (fun k => t + 1 + k + 1) =
      (List.range (len + 1)).map (fun k => t + k + 1) := by
  rw [List.range_succ_eq_map, List.map_cons, List.map_map]
  congr 1
  apply List.map_congr_left
  intro a _
  simp only [Function.comp_apply]
  omega

/-- A sleeps list whose entries are consecutive from `t + 2` stays
consecutive from `t + 1` after prepending `t + 1`. -/
theorem sleeps_cons_shape (t : Nat) (l : List Nat)
    (h : l = (List.range l.length).map (fun k => t + 1 + k + 1)) :
    (t + 1) :: l = (List.range ((t + 1) :: l).length).map (fun k => t + k + 1) := by
  conv_lhs => rw [h]
  rw [List.length_cons]
  exact cons_range_map t l.length

/-- Closed form of the dispatch loop: from `i` up to `stop` it sends
exactly the `(stop + 1 - i).toNat` consecutive integers starting at
`i`. -/
theorem dispatchFrom_eq_map :
    ∀ (k : Nat) (stop i : Int), (stop + 1 - i).toNat = k →
      dispatchFrom stop i = (List.range k).map (fun j : Nat => i + (j : Int)) := by
  intro k
  induction k with
  | zero =>
    intro stop i hk
    rw [dispatchFrom]
    have : ¬ i ≤ stop := by omega
    simp [this]
  | succ m ih =>
    intro stop i hk
    rw [dispatchFrom]
    have hle : i ≤ stop := by omega
    have hrec := ih stop (i + 1) (by omega)
    rw [dif_pos hle, hrec, List.range_succ_eq_map, List.map_cons, List.map_map]
    congr 1
    · omega
    apply List.map_congr_left
    intro a _
    simp only [Function.comp_apply]
    push_cast
    omega

/-- The runner's attempt counter: at most `remaining` fetches are made
starting from fuel `remaining`. -/
theorem runnerAux_attempts_le (fetch : Nat → FetchResult) (rx : FieldMatchers)
    (tp : List Char → Option Int) (i : Int) :
    ∀ remaining tries, (runnerAux fetch rx tp i remaining tries).attempts ≤ remaining := by
  intro remaining
  induction remaining with
  | zero => intro tries; simp [runnerAux]
  | succ m ih =>
    intro tries
    have h1 := ih (tries + 1)
    simp only [runnerAux]
    split
    · exact Nat.succ_le_succ h1
    · exact Nat.succ_le_succ h1
    · split_ifs
      · exact Nat.succ_le_succ (Nat.zero_le m)
      · exact Nat.succ_le_succ (Nat.zero_le m)
      · exact Nat.succ_le_succ h1

/-- When every attempt fails retryably, the runner makes exactly one
fetch per unit of fuel, abandons the identifier, and sleeps after every
attempt. -/
theorem runnerAux_all_retryable (fetch : Nat → FetchResult) (rx : FieldMatchers)
    (tp : List Char → Option Int) (i : Int)
    (hr : ∀ n, retryable (fetch n) = true) :
    ∀ remaining tries, runnerAux fetch rx tp i remaining tries =
      { outcome := .failed, attempts := remaining,
        sleeps := (List.range remaining).map (fun k => tries + k + 1) } := by
  intro remaining
  induction remaining with
  | zero => intro tries; simp [runnerAux]
  | succ m ih =>
    intro tries
    have hrec := ih (tries + 1)
    have hn := hr (tries + 1)
    simp only [runnerAux]
    split
    · rw [hrec]
      exact congrArg
        (fun s : List Nat =>
          ({ outcome := .failed, attempts := m + 1, sleeps := s } : RunTrace))
        (cons_range_map tries m)
    · rw [hrec]
      exact congrArg
        (fun s : List Nat =>
          ({ outcome := .failed, attempts := m + 1, sleeps := s } : RunTrace))
        (cons_range_map tries m)
    · next body heq =>
      rw [heq] at hn
      simp only [retryable, Bool.not_eq_true'] at hn
      rw [if_neg (by simp [hn])]
      rw [hrec]
      exact congrArg
        (fun s : List Nat =>
          ({ outcome := .failed, attempts := m + 1, sleeps := s } : RunTrace))
        (cons_range_map tries m)

/-- The sleeps recorded by the runner are always the consecutive attempt
numbers starting after `tries`: the j-th sleep (0-based) lasts
`tries + j + 1` seconds. -/
theorem runnerAux_sleeps (fetch : Nat → FetchResult) (rx : FieldMatchers)
    (tp : List Char → Option Int) (i : Int) :
    ∀ remaining tries,
      (runnerAux fetch rx tp i remaining tries).sleeps =
        (List.range (runnerAux fetch rx tp i remaining tries).sleeps.length).map
          (fun k => tries + k + 1) := by
  intro remaining
  induction remaining with
  | zero => intro tries; simp [runnerAux]
  | succ m ih =>
    intro tries
    have hrec := ih (tries + 1)
    simp only [runnerAux]
    split
    · exact sleeps_cons_shape tries _ hrec
    · exact sleeps_cons_shape tries _ hrec
    · split_ifs
      · simp
      · simp
      · exact sleeps_cons_shape tries _ hrec

/-!  Claim theorems. -/

/-- C6: given a start offset and a count, the dispatcher produces each
integer in `[start+1, start+count]` exactly once, in strictly increasing
order, onto the identifier channel (modelled as the produced list, whose
end models `close(ci)`), and then produces nothing further. -/
theorem c6_dispatcher_range (s : Int) (n : Nat) :
    (dispatch s n).length = n ∧
    (∀ x : Int, x ∈ dispatch s n ↔ s + 1 ≤ x ∧ x ≤ s + n) ∧
    (dispatch s n).Pairwise (· < ·) ∧
    (dispatch s n).Nodup := by
  have hd : dispatch s n = (List.range n).map (fun j : Nat => (1 + s) + (j : Int)) :=
    dispatchFrom_eq_map n ((n : Int) + s) (1 + s) (by omega)
  have hpw : (dispatch s n).Pairwise (· < ·) := by
    rw [hd, List.pairwise_map]
    exact (List.pairwise_lt_range n).imp (by intro a b hab; omega)
  refine ⟨?_, ?_, hpw, hpw.imp (by intro a b hab; omega)⟩
  · rw [hd]; simp
  · intro x
    rw [hd]
    simp only [List.mem_map, List.mem_range]
    constructor
    · rintro ⟨j, hj, rfl⟩
      omega
    · intro hx
      exact ⟨(x - (1 + s)).toNat, by omega, by omega⟩

/-- C7: every retryable failure on attempt n is followed by a sleep of
exactly n time units (the j-th recorded sleep, 0-based, lasts j+1
seconds), a linear backoff proportional to the attempt count. -/
theorem c7_linear_backoff (fetch : Nat → FetchResult) (rx : FieldMatchers)
    (tp : List Char → Option Int) (i : Int) (maxTries : Nat) :
    (runnerOne fetch rx tp i maxTries).sleeps =
      (List.range (runnerOne fetch rx tp i maxTries).sleeps.length).map
        (fun k => k + 1) := by
  have h := runnerAux_sleeps fetch rx tp i maxTries 0
  simpa using h

/-- C8: the writer performs one synchronous insert per received record
in order until the channel closes; a failed insert is logged and never
requeued nor blocks later records; completion is signalled exactly
once. -/
theorem c8_writer_drains (insertOk : Torrent → Bool) (records : List Torrent) :
    (writerRun insertOk records).inserted = records ∧
    (writerRun insertOk records).logged =
      (records.filter (fun t => !(insertOk t))).map (fun t => t.Id) ∧
    (writerRun insertOk records).doneSignals = 1 := by
  induction records with
  | nil => simp [writerRun]
  | cons t rest ih =>
    by_cases h : insertOk t
    · simp [writerRun, ih.1, ih.2.1, ih.2.2, h]
    · simp only [Bool.not_eq_true] at h
      simp [writerRun, ih.1, ih.2.1, ih.2.2, h]

/-- C9 (amended): the not-found check slices `body[:300]`
unconditionally, but the slice is well-defined for every fetched body —
`ioutil.ReadAll` returns a buffer of capacity at least 512 and Go slice
bounds run to capacity — so no panic exists: a doctype-prefixed body
shorter than 300 bytes is processed normally, the marker is looked up
in the capacity-backed 300-byte window, and the identifier is either
skipped or handed to extraction. -/
theorem c9_short_body_processed (fetch : Nat → FetchResult) (rx : FieldMatchers)
    (tp : List Char → Option Int) (i : Int) (maxTries : Nat) (body : List Char)
    (hfetch : fetch 1 = .ok body) (hmax : 1 ≤ maxTries)
    (hpre : doctypeL.isPrefixOf body = true) (_hlen : body.length < 300) :
    (hasSub notFoundL (slice300 body) = true →
      runnerOne fetch rx tp i maxTries =
        { outcome := .skipped, attempts := 1, sleeps := [] }) ∧
    (hasSub notFoundL (slice300 body) = false →
      runnerOne fetch rx tp i maxTries =
        { outcome := .emitted
            (ParseTorrent rx tp body { torrentZero with Id := i }).2
            (ParseTorrent rx tp body { torrentZero with Id := i }).1,
          attempts := 1, sleeps := [] }) := by
  obtain ⟨m, rfl⟩ : ∃ m, maxTries = m + 1 := ⟨maxTries - 1, by omega⟩
  constructor
  · intro hmark
    simp [runnerOne, runnerAux, hfetch, hpre, hmark]
  · intro hmark
    simp [runnerOne, runnerAux, hfetch, hpre, hmark]

/-- Witness for C9 (amended): a 107-byte marker-bearing body is
skipped, and a 36-byte marker-free body reaches extraction. -/
theorem c9_short_body_processed_witness :
    (doctypeL.isPrefixOf shortNotFoundBody = true ∧
      shortNotFoundBody.length < 300 ∧
      runnerOne (fun _ => .ok shortNotFoundBody) concreteMatchers tp0 5 3 =
        { outcome := .skipped, attempts := 1, sleeps := [] }) ∧
    (doctypeL.isPrefixOf shortNoMarkerBody = true ∧
      shortNoMarkerBody.length < 300 ∧
      runnerOne (fun _ => .ok shortNoMarkerBody) concreteMatchers tp0 6 3 =
        { outcome := .emitted
            (ParseTorrent concreteMatchers tp0 shortNoMarkerBody
              { torrentZero with Id := 6 }).2
            (ParseTorrent concreteMatchers tp0 shortNoMarkerBody
              { torrentZero with Id := 6 }).1,
          attempts := 1, sleeps := [] }) :=
  ⟨⟨by decide, by decide,
    (c9_short_body_processed (fun _ => .ok shortNotFoundBody) concreteMatchers tp0 5 3
      shortNotFoundBody rfl (by decide) (by decide) (by decide)).1 (by decide)⟩,
   ⟨by decide, by decide,
    (c9_short_body_processed (fun _ => .ok shortNoMarkerBody) concreteMatchers tp0 6 3
      shortNoMarkerBody rfl (by decide) (by decide) (by decide)).2 (by decide)⟩⟩

/-- Counterexample to C9 as stated: a doctype-prefixed body shorter
than 300 bytes does reach the skip path — no out-of-range panic
occurs, because the ReadAll buffer's capacity backs the slice. -/
theorem c9_counterexample :
    doctypeL.isPrefixOf shortNotFoundBody = true ∧
    shortNotFoundBody.length < 300 ∧
    (runnerOne (fun _ => .ok shortNotFoundBody) concreteMatchers tp0 9 3).outcome =
      .skipped := by
  refine ⟨by decide, by decide, by decide⟩

/-- C2 (amended): the number of fetch attempts for one identifier never
exceeds the configured `maxTries`, and when every attempt fails
retryably exactly `maxTries` attempts are made, after which the
identifier is abandoned (`failed`: one "Failed torrent" log line, no
record). -/
theorem c2_attempts_bounded (fetch : Nat → FetchResult) (rx : FieldMatchers)
    (tp : List Char → Option Int) (i : Int) (maxTries : Nat) :
    (runnerOne fetch rx tp i maxTries).attempts ≤ maxTries ∧
    ((∀ n, retryable (fetch n) = true) →
      (runnerOne fetch rx tp i maxTries).attempts = maxTries ∧
      (runnerOne fetch rx tp i maxTries).outcome = .failed) := by
  constructor
  · exact runnerAux_attempts_le fetch rx tp i maxTries 0
  · intro hr
    rw [runnerOne, runnerAux_all_retryable fetch rx tp i hr maxTries 0]
    exact ⟨rfl, rfl⟩

/-- Witness for C2 (amended): always-failing fetch with `maxTries = 2`
makes exactly 2 attempts and abandons. -/
theorem c2_attempts_bounded_witness :
    (runnerOne (fun _ => .connError) concreteMatchers tp0 1 2).attempts = 2 ∧
    (runnerOne (fun _ => .connError) concreteMatchers tp0 1 2).outcome = .failed :=
  (c2_attempts_bounded (fun _ => .connError) concreteMatchers tp0 1 2).2
    (fun _ => rfl)

/-- Counterexample to C2 as stated: with the configured maximum set to 2
and a fetch that always fails retryably, the worker makes 2 fetch
attempts, not 3. -/
theorem c2_counterexample :
    (runnerOne (fun _ => .connError) concreteMatchers tp0 1 2).attempts = 2 ∧
    (runnerOne (fun _ => .connError) concreteMatchers tp0 1 2).attempts ≠ 3 := by
  constructor <;> decide

/-- C4: every body that passes the doctype check and contains the
not-found marker within its first 300 bytes is skipped — no record, no
log, no retry, a single fetch attempt — regardless of the body's
length, since the 300-byte window is backed by the ReadAll buffer's
capacity. -/
theorem c4_not_found_skips (fetch : Nat → FetchResult) (rx : FieldMatchers)
    (tp : List Char → Option Int) (i : Int) (maxTries : Nat) (body : List Char)
    (hfetch : fetch 1 = .ok body) (hmax : 1 ≤ maxTries)
    (hpre : doctypeL.isPrefixOf body = true)
    (hmark : hasSub notFoundL (body.take 300) = true) :
    runnerOne fetch rx tp i maxTries =
      { outcome := .skipped, attempts := 1, sleeps := [] } := by
  obtain ⟨m, rfl⟩ : ∃ m, maxTries = m + 1 := ⟨maxTries - 1, by omega⟩
  have hw : hasSub notFoundL (slice300 body) = true :=
    hasSub_append notFoundL (body.take 300)
      (List.replicate (300 - body.length) (Char.ofNat 0)) hmark
  simp [runnerOne, runnerAux, hfetch, hpre, hw]

/-- Witness for C4 at a concrete 308-byte body carrying the marker. -/
theorem c4_not_found_skips_witness :
    doctypeL.isPrefixOf notFoundBody = true ∧
    hasSub notFoundL (notFoundBody.take 300) = true ∧
    runnerOne (fun _ => .ok notFoundBody) concreteMatchers tp0 4 3 =
      { outcome := .skipped, attempts := 1, sleeps := [] } :=
  ⟨by decide, by decide,
    c4_not_found_skips (fun _ => .ok notFoundBody) concreteMatchers tp0 4 3
      notFoundBody rfl (by decide) (by decide) (by decide)⟩

/-- C1 (code bug): a fetched body that passes the doctype check, has no
not-found marker, and fails extraction ("title not found") still has its
partially populated record sent on `dbChan` — the error branch logs but
does not `continue` — and the writer then inserts one row for it. -/
theorem c1_parse_failure_still_emits :
    (runnerOne (fun _ => .ok noTitleBody) concreteMatchers tp0 7 3).outcome =
      .emitted { torrentZero with Id := 7 } (some "title not found") ∧
    (writerRun (fun _ => true) [{ torrentZero with Id := 7 }]).inserted.length = 1 := by
  constructor <;> decide

/-- C5: extraction attempts the ten fields in the fixed source order
with independent matches against the same unmodified input; the first
missing or malformed field determines the single returned error (the
error is exactly the first-failure walk `parseTorrentError`, independent
of the incoming record), and each numeric field's "malformed" error is
distinct from its "not found" error. -/
theorem c5_fixed_order_first_error (rx : FieldMatchers)
    (tp : List Char → Option Int) (data : List Char) (t : Torrent) :
    (ParseTorrent rx tp data t).1 = parseTorrentError rx tp data ∧
    ("size malformed" : String) ≠ "size not found" ∧
    ("seeders malformed" : String) ≠ "seeders not found" ∧
    ("leechers malformed" : String) ≠ "leechers not found" ∧
    ("files_num malformed" : String) ≠ "files_num not found" := by
  refine ⟨?_, by decide, by decide, by decide, by decide⟩
  unfold ParseTorrent parseTorrentError
  cases h1 : rx.title data with
  | none => rfl
  | some m1 =>
  cases h2 : rx.category data with
  | none => rfl
  | some m2 =>
  cases h3 : rx.size data with
  | none => rfl
  | some m3 =>
  dsimp only
  cases hp3 : (goParseInt m3).2 with
  | false => simp [hp3]
  | true =>
  simp only [hp3, Bool.not_true, Bool.false_eq_true, if_false]
  cases h4 : rx.seeders data with
  | none => rfl
  | some m4 =>
  dsimp only
  cases hp4 : (goParseInt m4).2 with
  | false => simp [hp4]
  | true =>
  simp only [hp4, Bool.not_true, Bool.false_eq_true, if_false]
  cases h5 : rx.leechers data with
  | none => rfl
  | some m5 =>
  dsimp only
  cases hp5 : (goParseInt m5).2 with
  | false => simp [hp5]
  | true =>
  simp only [hp5, Bool.not_true, Bool.false_eq_true, if_false]
  cases h6 : rx.uploaded data with
  | none => rfl
  | some m6 =>
  dsimp only
  cases hp6 : tp m6 with
  | none => simp [hp6]
  | some v =>
  simp only [hp6, Option.isNone_some, Bool.false_eq_true, if_false]
  cases h7 : rx.uploader data with
  | none => rfl
  | some m7 =>
  cases h8 : rx.files_num data with
  | none => rfl
  | some m8 =>
  dsimp only
  cases hp8 : (goParseInt m8).2 with
  | false => simp [hp8]
  | true =>
  simp only [hp8, Bool.not_true, Bool.false_eq_true, if_false]
  cases h9 : rx.description data with
  | none => rfl
  | some m9 =>
  cases h10 : rx.magnet data with
  | none => rfl
  | some m10 => rfl

/-- C3 (amended): on a successful extraction the title and category are
the captures with markup entities un-escaped, the description is its
capture with embedded tags stripped and then un-escaped but with no
whitespace trimming, and the uploader is stored as the raw capture with
no un-escaping. -/
theorem c3_textual_fields (rx : FieldMatchers) (tp : List Char → Option Int)
    (data : List Char) (t : Torrent)
    (m1 m2 m3 m4 m5 m6 m7 m8 m9 m10 : List Char)
    (h1 : rx.title data = some m1) (h2 : rx.category data = some m2)
    (h3 : rx.size data = some m3) (hp3 : (goParseInt m3).2 = true)
    (h4 : rx.seeders data = some m4) (hp4 : (goParseInt m4).2 = true)
    (h5 : rx.leechers data = some m5) (hp5 : (goParseInt m5).2 = true)
    (h6 : rx.uploaded data = some m6) (hp6 : (tp m6).isSome = true)
    (h7 : rx.uploader data = some m7)
    (h8 : rx.files_num data = some m8) (hp8 : (goParseInt m8).2 = true)
    (h9 : rx.description data = some m9) (h10 : rx.magnet data = some m10) :
    (ParseTorrent rx tp data t).1 = none ∧
    (ParseTorrent rx tp data t).2.Title = unescapeChars m1 ∧
    (ParseTorrent rx tp data t).2.Category = unescapeChars m2 ∧
    (ParseTorrent rx tp data t).2.Uploader = m7 ∧
    (ParseTorrent rx tp data t).2.Description = unescapeChars (stripTags m9) := by
  obtain ⟨v, hv⟩ := Option.isSome_iff_exists.mp hp6
  simp [ParseTorrent, h1, h2, h3, hp3, h4, hp4, h5, hp5, h6, hv, h7, h8, hp8, h9, h10]

/-- Witness for C3 (amended) on the concrete well-formed document. -/
theorem c3_textual_fields_witness :
    (ParseTorrent concreteMatchers tp0 goodDoc torrentZero).1 = none ∧
    (ParseTorrent concreteMatchers tp0 goodDoc torrentZero).2.Title =
      unescapeChars "Cool&amp;Torrent".toList ∧
    (ParseTorrent concreteMatchers tp0 goodDoc torrentZero).2.Category =
      unescapeChars "Video".toList ∧
    (ParseTorrent concreteMatchers tp0 goodDoc torrentZero).2.Uploader =
      "Ann&amp;Bob".toList ∧
    (ParseTorrent concreteMatchers tp0 goodDoc torrentZero).2.Description =
      unescapeChars (stripTags " A &amp; B <b>desc</b> ".toList) :=
  c3_textual_fields concreteMatchers tp0 goodDoc torrentZero
    "Cool&amp;Torrent".toList "Video".toList "2048".toList "42".toList
    "7".toList "2011-07-04 12:00:00 GMT".toList "Ann&amp;Bob".toList
    "3".toList " A &amp; B <b>desc</b> ".toList "magnet:?xt=urn:btih:abc".toList
    (by decide) (by decide) (by decide) (by decide) (by decide) (by decide)
    (by decide) (by decide) (by decide) (by decide) (by decide) (by decide)
    (by decide) (by decide) (by decide)

/-- Counterexample to C3 as stated: on the concrete document the
uploader capture contains a markup entity but is stored raw (not
un-escaped), and the description is stored without the claimed
surrounding-whitespace trim. -/
theorem c3_counterexample :
    concreteMatchers.uploader goodDoc = some "Ann&amp;Bob".toList ∧
    (ParseTorrent concreteMatchers tp0 goodDoc torrentZero).1 = none ∧
    (ParseTorrent concreteMatchers tp0 goodDoc torrentZero).2.Uploader ≠
      unescapeChars "Ann&amp;Bob".toList ∧
    concreteMatchers.description goodDoc = some " A &amp; B <b>desc</b> ".toList ∧
    (ParseTorrent concreteMatchers tp0 goodDoc torrentZero).2.Description ≠
      unescapeChars (trimChars (stripTags " A &amp; B <b>desc</b> ".toList)) := by
  refine ⟨by decide, by decide, by decide, by decide, by decide⟩

/-- C10 (amended): when extraction fails at the k-th field of the fixed
order, every earlier field has been overwritten with its extracted
value and `Id` and every later field keep their prior values; the
failing field itself keeps its prior value when the error is a
"not found" error, but on a "malformed" parse error it has already been
overwritten with the failed parse's returned value (the clamped or zero
integer, or the zero time). -/
theorem c10_partial_update_frame (rx : FieldMatchers)
    (tp : List Char → Option Int) (data : List Char) (t : Torrent) :
    (rx.title data = none →
      ParseTorrent rx tp data t = (some "title not found", t)) ∧
    (∀ m1, rx.title data = some m1 → rx.category data = none →
      ParseTorrent rx tp data t =
        (some "category not found", { t with Title := unescapeChars m1 })) ∧
    (∀ m1 m2, rx.title data = some m1 → rx.category data = some m2 →
      rx.size data = none →
      ParseTorrent rx tp data t =
        (some "size not found",
          { t with Title := unescapeChars m1, Category := unescapeChars m2 })) ∧
    (∀ m1 m2 m3, rx.title data = some m1 → rx.category data = some m2 →
      rx.size data = some m3 → (goParseInt m3).2 = false →
      ParseTorrent rx tp data t =
        (some "size malformed",
          { t with Title := unescapeChars m1, Category := unescapeChars m2,
                   Size := (goParseInt m3).1 })) ∧
    (∀ m1 m2 m3, rx.title data = some m1 → rx.category data = some m2 →
      rx.size data = some m3 → (goParseInt m3).2 = true →
      rx.seeders data = none →
      ParseTorrent rx tp data t =
        (some "seeders not found",
          { t with Title := unescapeChars m1, Category := unescapeChars m2,
                   Size := (goParseInt m3).1 })) ∧
    (∀ m1 m2 m3 m4, rx.title data = some m1 → rx.category data = some m2 →
      rx.size data = some m3 → (goParseInt m3).2 = true →
      rx.seeders data = some m4 → (goParseInt m4).2 = false →
      ParseTorrent rx tp data t =
        (some "seeders malformed",
          { t with Title := unescapeChars m1, Category := unescapeChars m2,
                   Size := (goParseInt m3).1, Seeders := (goParseInt m4).1 })) ∧
    (∀ m1 m2 m3 m4, rx.title data = some m1 → rx.category data = some m2 →
      rx.size data = some m3 → (goParseInt m3).2 = true →
      rx.seeders data = some m4 → (goParseInt m4).2 = true →
      rx.leechers data = none →
      ParseTorrent rx tp data t =
        (some "leechers not found",
          { t with Title := unescapeChars m1, Category := unescapeChars m2,
                   Size := (goParseInt m3).1, Seeders := (goParseInt m4).1 })) ∧
    (∀ m1 m2 m3 m4 m5, rx.title data = some m1 → rx.category data = some m2 →
      rx.size data = some m3 → (goParseInt m3).2 = true →
      rx.seeders data = some m4 → (goParseInt m4).2 = true →
      rx.leechers data = some m5 → (goParseInt m5).2 = false →
      ParseTorrent rx tp data t =
        (some "leechers malformed",
          { t with Title := unescapeChars m1, Category := unescapeChars m2,
                   Size := (goParseInt m3).1, Seeders := (goParseInt m4).1,
                   Leechers := (goParseInt m5).1 })) ∧
    (∀ m1 m2 m3 m4 m5, rx.title data = some m1 → rx.category data = some m2 →
      rx.size data = some m3 → (goParseInt m3).2 = true →
      rx.seeders data = some m4 → (goParseInt m4).2 = true →
      rx.leechers data = some m5 → (goParseInt m5).2 = true →
      rx.uploaded data = none →
      ParseTorrent rx tp data t =
        (some "uploaded not found",
          { t with Title := unescapeChars m1, Category := unescapeChars m2,
                   Size := (goParseInt m3).1, Seeders := (goParseInt m4).1,
                   Leechers := (goParseInt m5).1 })) ∧
    (∀ m1 m2 m3 m4 m5 m6, rx.title data = some m1 → rx.category data = some m2 →
      rx.size data = some m3 → (goParseInt m3).2 = true →
      rx.seeders data = some m4 → (goParseInt m4).2 = true →
      rx.leechers data = some m5 → (goParseInt m5).2 = true →
      rx.uploaded data = some m6 → tp m6 = none →
      ParseTorrent rx tp data t =
        (some "uploaded malformed",
          { t with Title := unescapeChars m1, Category := unescapeChars m2,
                   Size := (goParseInt m3).1, Seeders := (goParseInt m4).1,
                   Leechers := (goParseInt m5).1, Uploaded := 0 })) ∧
    (∀ m1 m2 m3 m4 m5 m6 v, rx.title data = some m1 → rx.category data = some m2 →
      rx.size data = some m3 → (goParseInt m3).2 = true →
      rx.seeders data = some m4 → (goParseInt m4).2 = true →
      rx.leechers data = some m5 → (goParseInt m5).2 = true →
      rx.uploaded data = some m6 → tp m6 = some v →
      rx.uploader data = none →
      ParseTorrent rx tp data t =
        (some "uploader not found",
          { t with Title := unescapeChars m1, Category := unescapeChars m2,
                   Size := (goParseInt m3).1, Seeders := (goParseInt m4).1,
                   Leechers := (goParseInt m5).1, Uploaded := v })) ∧
    (∀ m1 m2 m3 m4 m5 m6 v m7, rx.title data = some m1 → rx.category data = some m2 →
      rx.size data = some m3 → (goParseInt m3).2 = true →
      rx.seeders data = some m4 → (goParseInt m4).2 = true →
      rx.leechers data = some m5 → (goParseInt m5).2 = true →
      rx.uploaded data = some m6 → tp m6 = some v →
      rx.uploader data = some m7 → rx.files_num data = none →
      ParseTorrent rx tp data t =
        (some "files_num not found",
          { t with Title := unescapeChars m1, Category := unescapeChars m2,
                   Size := (goParseInt m3).1, Seeders := (goParseInt m4).1,
                   Leechers := (goParseInt m5).1, Uploaded := v,
                   Uploader := m7 })) ∧
    (∀ m1 m2 m3 m4 m5 m6 v m7 m8, rx.title data = some m1 → rx.category data = some m2 →
      rx.size data = some m3 → (goParseInt m3).2 = true →
      rx.seeders data = some m4 → (goParseInt m4).2 = true →
      rx.leechers data = some m5 → (goParseInt m5).2 = true →
      rx.uploaded data = some m6 → tp m6 = some v →
      rx.uploader data = some m7 → rx.files_num data = some m8 →
      (goParseInt m8).2 = false →
      ParseTorrent rx tp data t =
        (some "files_num malformed",
          { t with Title := unescapeChars m1, Category := unescapeChars m2,
                   Size := (goParseInt m3).1, Seeders := (goParseInt m4).1,
                   Leechers := (goParseInt m5).1, Uploaded := v,
                   Uploader := m7, Files_num := (goParseInt m8).1 })) ∧
    (∀ m1 m2 m3 m4 m5 m6 v m7 m8, rx.title data = some m1 → rx.category data = some m2 →
      rx.size data = some m3 → (goParseInt m3).2 = true →
      rx.seeders data = some m4 → (goParseInt m4).2 = true →
      rx.leechers data = some m5 → (goParseInt m5).2 = true →
      rx.uploaded data = some m6 → tp m6 = some v →
      rx.uploader data = some m7 → rx.files_num data = some m8 →
      (goParseInt m8).2 = true → rx.description data = none →
      ParseTorrent rx tp data t =
        (some "description not found",
          { t with Title := unescapeChars m1, Category := unescapeChars m2,
                   Size := (goParseInt m3).1, Seeders := (goParseInt m4).1,
                   Leechers := (goParseInt m5).1, Uploaded := v,
                   Uploader := m7, Files_num := (goParseInt m8).1 })) ∧
    (∀ m1 m2 m3 m4 m5 m6 v m7 m8 m9, rx.title data = some m1 → rx.category data = some m2 →
      rx.size data = some m3 → (goParseInt m3).2 = true →
      rx.seeders data = some m4 → (goParseInt m4).2 = true →
      rx.leechers data = some m5 → (goParseInt m5).2 = true →
      rx.uploaded data = some m6 → tp m6 = some v →
      rx.uploader data = some m7 → rx.files_num data = some m8 →
      (goParseInt m8).2 = true → rx.description data = some m9 →
      rx.magnet data = none →
      ParseTorrent rx tp data t =
        (some "magnet not found",
          { t with Title := unescapeChars m1, Category := unescapeChars m2,
                   Size := (goParseInt m3).1, Seeders := (goParseInt m4).1,
                   Leechers := (goParseInt m5).1, Uploaded := v,
                   Uploader := m7, Files_num := (goParseInt m8).1,
                   Description := unescapeChars (stripTags m9) })) := by
  refine ⟨?_, ?_, ?_, ?_, ?_, ?_, ?_, ?_, ?_, ?_, ?_, ?_, ?_, ?_, ?_⟩
  · intro h1
    simp [ParseTorrent, h1]
  · intro m1 h1 h2
    simp [ParseTorrent, h1, h2]
  · intro m1 m2 h1 h2 h3
    simp [ParseTorrent, h1, h2, h3]
  · intro m1 m2 m3 h1 h2 h3 hp3
    simp [ParseTorrent, h1, h2, h3, hp3]
  · intro m1 m2 m3 h1 h2 h3 hp3 h4
    simp [ParseTorrent, h1, h2, h3, hp3, h4]
  · intro m1 m2 m3 m4 h1 h2 h3 hp3 h4 hp4
    simp [ParseTorrent, h1, h2, h3, hp3, h4, hp4]
  · intro m1 m2 m3 m4 h1 h2 h3 hp3 h4 hp4 h5
    simp [ParseTorrent, h1, h2, h3, hp3, h4, hp4, h5]
  · intro m1 m2 m3 m4 m5 h1 h2 h3 hp3 h4 hp4 h5 hp5
    simp [ParseTorrent, h1, h2, h3, hp3, h4, hp4, h5, hp5]
  · intro m1 m2 m3 m4 m5 h1 h2 h3 hp3 h4 hp4 h5 hp5 h6
    simp [ParseTorrent, h1, h2, h3, hp3, h4, hp4, h5, hp5, h6]
  · intro m1 m2 m3 m4 m5 m6 h1 h2 h3 hp3 h4 hp4 h5 hp5 h6 hp6
    simp [ParseTorrent, h1, h2, h3, hp3, h4, hp4, h5, hp5, h6, hp6]
  · intro m1 m2 m3 m4 m5 m6 v h1 h2 h3 hp3 h4 hp4 h5 hp5 h6 hv h7
    simp [ParseTorrent, h1, h2, h3, hp3, h4, hp4, h5, hp5, h6, hv, h7]
  · intro m1 m2 m3 m4 m5 m6 v m7 h1 h2 h3 hp3 h4 hp4 h5 hp5 h6 hv h7 h8
    simp [ParseTorrent, h1, h2, h3, hp3, h4, hp4, h5, hp5, h6, hv, h7, h8]
  · intro m1 m2 m3 m4 m5 m6 v m7 m8 h1 h2 h3 hp3 h4 hp4 h5 hp5 h6 hv h7 h8 hp8
    simp [ParseTorrent, h1, h2, h3, hp3, h4, hp4, h5, hp5, h6, hv, h7, h8, hp8]
  · intro m1 m2 m3 m4 m5 m6 v m7 m8 h1 h2 h3 hp3 h4 hp4 h5 hp5 h6 hv h7 h8 hp8 h9
    simp [ParseTorrent, h1, h2, h3, hp3, h4, hp4, h5, hp5, h6, hv, h7, h8, hp8, h9]
  · intro m1 m2 m3 m4 m5 m6 v m7 m8 m9 h1 h2 h3 hp3 h4 hp4 h5 hp5 h6 hv h7 h8 hp8 h9 h10
    simp [ParseTorrent, h1, h2, h3, hp3, h4, hp4, h5, hp5, h6, hv, h7, h8, hp8, h9, h10]

/-- Witness for C10 (amended): the size-malformed case at a concrete
document whose size digits overflow `int64`. -/
theorem c10_partial_update_frame_witness :
    ParseTorrent concreteMatchers tp0 sizeOverflowDoc { torrentZero with Size := 5 } =
      (some "size malformed",
        { { torrentZero with Size := 5 } with
            Title := unescapeChars "T".toList,
            Category := unescapeChars "V".toList,
            Size := (goParseInt "9999999999999999999999".toList).1 }) :=
  (c10_partial_update_frame concreteMatchers tp0 sizeOverflowDoc
      { torrentZero with Size := 5 }).2.2.2.1
    "T".toList "V".toList "9999999999999999999999".toList
    (by decide) (by decide) (by decide) (by decide)

/-- Counterexample to C10 as stated: extraction fails at the size field
(a malformed error), yet the size field does not retain its prior value
5 — it has been overwritten with the clamped parse result. -/
theorem c10_counterexample :
    (ParseTorrent concreteMatchers tp0 sizeOverflowDoc
        { torrentZero with Size := 5 }).1 = some "size malformed" ∧
    (ParseTorrent concreteMatchers tp0 sizeOverflowDoc
        { torrentZero with Size := 5 }).2.Size ≠ 5 := by
  constructor <;> decide

end ThePirateDb

example : ThePirateDb.hasSub "lo w".toList "hello world".toList = true := by decide

example : ThePirateDb.goParseInt "9999999999999999999999".toList = (2 ^ 63 - 1, false) := by decide

example : ThePirateDb.unescapeChars "A&amp;B".toList = "A&B".toList := by decide

example : ThePirateDb.stripTags "a<b>c</b>d".toList = "acd".toList := by decide
